import Mathlib

/-!
Shallow embedding of `src/api/generate-from-scrapwood.js`: a single serverless
HTTP handler that validates a POST request, builds a two-part prompt and relays
one outbound call to a generative-AI provider.

JavaScript values are modelled by the inductive `JsValue` (numbers as `Rat`;
JS float formatting and NaN are abstracted, no arithmetic is performed on
numbers by the source).  The outbound `fetch` is modelled as an oracle
`provider : OutboundCall → ProviderOutcome` passed to the handler; the handler
records the list of outbound calls it makes and the strings it logs, so that
"no outbound call occurs" and "the failure is logged" are statable.
-/

namespace Scrapwood

/-- A JavaScript runtime value, as far as the handler observes them. -/
inductive JsValue where
  | undefined
  | null
  | bool (b : Bool)
  | num (q : Rat)
  | str (s : String)
  | arr (elems : List JsValue)
  | obj (fields : List (String × JsValue))

namespace JsValue

/-- Is this value JavaScript `undefined`? -/
def isUndefined : JsValue → Bool
  | .undefined => true
  | _ => false

/-- Is this value `undefined` or `null` (the values whose destructuring
throws a `TypeError` in JavaScript)? -/
def isNullish : JsValue → Bool
  | .undefined => true
  | .null => true
  | _ => false

/-- JavaScript truthiness: `undefined`, `null`, `false`, `0` and `""` are
falsy; objects and arrays are always truthy.  (NaN is not modelled.) -/
def truthy : JsValue → Bool
  | .undefined => false
  | .null => false
  | .bool b => b
  | .num q => !(q == 0)
  | .str s => !(s == "")
  | .arr _ => true
  | .obj _ => true

/-- Property lookup on an object field list: first binding wins. -/
def lookupField : List (String × JsValue) → String → JsValue
  | [], _ => .undefined
  | (k, v) :: rest, name => if k == name then v else lookupField rest name

/-- JavaScript property access `v.name` (never throws: callers guard the
`undefined`/`null` cases).  Arrays and strings expose their `length`;
any other absent property reads as `undefined`. -/
def getField (v : JsValue) (name : String) : JsValue :=
  match v with
  | .obj fields => lookupField fields name
  | .arr elems => if name == "length" then .num elems.length else .undefined
  | .str s => if name == "length" then .num s.length else .undefined
  | _ => .undefined

/-- JavaScript strict equality `===` restricted to the uses in the source
(comparison against the primitive literals `0` and `undefined`).  Object and
array comparison is reference equality in JS and is conservatively `false`
here; the source never compares two objects. -/
def strictEqPrim : JsValue → JsValue → Bool
  | .undefined, .undefined => true
  | .null, .null => true
  | .bool a, .bool b => a == b
  | .num a, .num b => a == b
  | .str a, .str b => a == b
  | _, _ => false

end JsValue

/-- Rendering of a number inside serialized JSON.  The source only ever
serializes caller-supplied numbers verbatim; JS float formatting is abstracted
to an exact rendering of the rational. -/
def numToString (q : Rat) : String :=
  if q.den == 1 then toString q.num else toString q.num ++ "/" ++ toString q.den

/-- Escape one character for a JSON string literal. -/
def jsonEscapeChar (c : Char) : String :=
  if c == '"' then "\\\""
  else if c == '\\' then "\\\\"
  else if c == '\n' then "\\n"
  else if c == '\t' then "\\t"
  else if c == '\r' then "\\r"
  else String.singleton c

/-- A JSON string literal for `s`. -/
def jsonQuote (s : String) : String :=
  "\"" ++ String.join (s.data.map jsonEscapeChar) ++ "\""

mutual

/-- `JSON.stringify` as used by the source on caller-supplied data.
`undefined` is rendered as `null` (it can only occur inside an array here);
the `(null, 2)` pretty-printing indentation of the source call is abstracted
to a compact rendering, which no claim depends on. -/
def jsonStringify : JsValue → String
  | .undefined => "null"
  | .null => "null"
  | .bool b => cond b "true" "false"
  | .num q => numToString q
  | .str s => jsonQuote s
  | .arr elems => "[" ++ jsonStringifyList elems ++ "]"
  | .obj fields => "\x7b" ++ jsonStringifyFields fields ++ "\x7d"

def jsonStringifyList : List JsValue → String
  | [] => ""
  | [v] => jsonStringify v
  | v :: w :: rest => jsonStringify v ++ "," ++ jsonStringifyList (w :: rest)

def jsonStringifyFields : List (String × JsValue) → String
  | [] => ""
  | [(k, v)] => jsonQuote k ++ ":" ++ jsonStringify v
  | (k, v) :: f :: rest =>
      jsonQuote k ++ ":" ++ jsonStringify v ++ "," ++ jsonStringifyFields (f :: rest)

end

mutual

/-- JavaScript string coercion, as performed by template-literal
interpolation `$\x7bprompt\x7d`. -/
def jsToString : JsValue → String
  | .undefined => "undefined"
  | .null => "null"
  | .bool b => cond b "true" "false"
  | .num q => numToString q
  | .str s => s
  | .arr elems => jsToStringList elems
  | .obj _ => "[object Object]"

def jsToStringList : List JsValue → String
  | [] => ""
  | [v] => jsToString v
  | v :: w :: rest => jsToString v ++ "," ++ jsToStringList (w :: rest)

end

/-- The fixed system instruction of the source (`SYSTEM_PROMPT`), transcribed
verbatim from the template literal; apostrophes, braces and backticks are
written with hexadecimal escapes. -/
def SYSTEM_PROMPT : String :=
  "\n"
  ++ "You are an expert AI for waste-material fabrication. Your task is to design a 3D assembly for a user-described object using ONLY a provided list of scrapwood pieces.\n"
  ++ "\n"
  ++ "**CORE DIRECTIVE:**\n"
  ++ "You MUST construct the object using ONLY the materials listed. You are FORBIDDEN from inventing new pieces or using more material than is available in the list. The final assembly must be physically plausible.\n"
  ++ "\n"
  ++ "**CRITICAL RULES:**\n"
  ++ "1.  **Material Constraint:** You will be given a JSON array of available scrapwood pieces with their dimensions. This is your entire inventory.\n"
  ++ "2.  **Cutting is Allowed:** You can cut, shorten, or divide the provided pieces.\n"
  ++ "3.  **Handling Cuts:** When a piece is cut:\n"
  ++ "    a.  The original piece in the \x27parts\x27 array must have its \x27dimensions\x27 and \x27origin\x27 updated to reflect its new, smaller size.\n"
  ++ "    b.  You MUST create a NEW part entry for the \"offcut\" (the piece that was removed).\n"
  ++ "    c.  This new offcut part MUST have a unique ID (e.g., \"original_id_offcut\"), its correct dimensions, and its \x60status\x60 property MUST be set to \x60\"discarded\"\x60.\n"
  ++ "4.  **Asymmetry is Encouraged:** The design does NOT need to be symmetrical. Create a functional and creative assembly that works with the given, often irregular, pieces.\n"
  ++ "5.  **Output Raw JSON Only:** Your entire response must be ONLY the raw JSON object. Do not use markdown (like \x60\x60\x60json) or add any explanatory text.\n"
  ++ "\n"
  ++ "**JSON OUTPUT STRUCTURE:**\n"
  ++ "The root object must contain \x27objectName\x27 (string) and \x27parts\x27 (array). Each part object in the array MUST have:\n"
  ++ "- **id** (string): A unique, human-readable identifier (e.g., \"table_leg_1\", \"seat_surface\").\n"
  ++ "- **origin** (object): The center point of the part in meters \x7bx, y, z\x7d.\n"
  ++ "- **dimensions** (object): The size in meters \x7bwidth, height, depth\x7d.\n"
  ++ "- **connections** (array of strings): IDs of other parts it is physically connected to.\n"
  ++ "- **status** (string, optional): Only use \"discarded\" for offcuts. Do not add a status for parts that are in use.\n"
  ++ "\n"
  ++ "**COORDINATE SYSTEM:**\n"
  ++ "- The ground is the X-Z plane.\n"
  ++ "- **+Y is UP.**\n"
  ++ "- **+X is RIGHT.**\n"
  ++ "- **+Z is BACK.**\n"
  ++ "- The origin (0,0,0) is at the center of the object\x27s base on the ground.\n"

/-- `export const maxDuration = 120` — platform time budget in seconds. -/
def maxDuration : Nat := 120

/-- The model identifier the source selects (`const model = ...`). -/
def model : String := "gemini-1.5-pro-latest"

/-- The literal text of the user-instruction template before the serialized
inventory. -/
def uiBeforeInventory : String :=
  "\n        Here is my inventory of scrapwood pieces (in meters):\n        "

/-- The literal text of the user-instruction template between the serialized
inventory and the interpolated prompt. -/
def uiBeforePrompt : String :=
  "\n\n        Using only these pieces, please generate a JSON assembly for the following object: \""

/-- The literal text of the user-instruction template after the prompt. -/
def uiAfterPrompt : String := "\"\n    "

/-- The `userInstruction` template literal, with the serialized inventory and
the string-coerced prompt interpolated. -/
def userInstructionOf (scrapwood prompt : JsValue) : String :=
  uiBeforeInventory ++ jsonStringify scrapwood
    ++ uiBeforePrompt ++ jsToString prompt ++ uiAfterPrompt

/-- Process-wide configuration: `process.env.GEMINI_API_KEY` is either absent
(`none`) or a string. -/
structure Env where
  GEMINI_API_KEY : Option String

/-- JS truthiness of the `apiKey` binding read from the environment
(`!apiKey` fails for an absent variable and for the empty string). -/
def Env.apiKeyTruthy (env : Env) : Bool :=
  match env.GEMINI_API_KEY with
  | none => false
  | some k => !(k == "")

/-- The `apiKey` string interpolated into the URL (only reached when the key
is truthy, hence present). -/
def Env.apiKeyString (env : Env) : String :=
  match env.GEMINI_API_KEY with
  | none => "undefined"
  | some k => k

/-- An inbound HTTP request as the handler observes it: `req.method` and the
(already body-parsed) `req.body`. -/
structure Request where
  method : String
  body : JsValue

/-- One text fragment of the outbound payload (`{ text: ... }` entries of
`geminiParts`), identified by its `text` field. -/
structure OutboundCall where
  /-- The URL the `fetch` is issued to. -/
  url : String
  /-- The `text` fields of `contents[0].parts`, in order. -/
  parts : List String
  /-- `generationConfig.temperature` (a raw JS value: `freakyness` is passed
  through without coercion). -/
  temperature : JsValue
  /-- `generationConfig.responseMimeType`. -/
  responseMimeType : String

/-- The outcome of the single outbound `fetch`, as the handler observes it. -/
inductive ProviderOutcome where
  /-- `googleResponse.ok` and `.json()` parses to this value. -/
  | success (body : JsValue)
  /-- `googleResponse.ok` but `.json()` rejects with this message. -/
  | jsonError (msg : String)
  /-- `!googleResponse.ok`, with `googleResponse.status` and the body text. -/
  | httpError (status : Nat) (bodyText : String)
  /-- `fetch` itself rejects with this message. -/
  | netError (msg : String)

/-- The response sent through `res.status(...).json(...)`. -/
structure HttpResponse where
  status : Nat
  body : JsValue

/-- What one invocation of the handler does: the response it sends, the
outbound calls it makes (in order) and the strings it logs via
`console.error` (in order). -/
structure HandlerResult where
  response : HttpResponse
  calls : List OutboundCall
  logs : List String

/-- `res.status(405).json({ message: 'Method Not Allowed' })`. -/
def methodNotAllowedResponse : HttpResponse :=
  { status := 405, body := .obj [("message", .str "Method Not Allowed")] }

/-- `res.status(500).json({ message: "API key is not configured on the server." })`. -/
def misconfiguredResponse : HttpResponse :=
  { status := 500
  , body := .obj [("message", .str "API key is not configured on the server.")] }

/-- The 400 body text (apostrophes written as hexadecimal escapes). -/
def missingFieldsMessage : String :=
  "Missing \x27prompt\x27 or \x27scrapwood\x27 list in the request."

/-- `res.status(400).json({ message: ... })`. -/
def badRequestResponse : HttpResponse :=
  { status := 400, body := .obj [("message", .str missingFieldsMessage)] }

/-- The catch-all `res.status(500).json({ message: ..., error: error.message })`. -/
def serverErrorResponse (errMsg : String) : HttpResponse :=
  { status := 500
  , body := .obj [("message", .str "An error occurred on the server."), ("error", .str errMsg)] }

/-- The `TypeError` message thrown when destructuring `req.body` while it is
`undefined` or `null`. -/
def destructureErrorMessage (body : JsValue) : String :=
  "Cannot destructure property \x27prompt\x27 of \x27req.body\x27 as it is "
    ++ (if body.isUndefined then "undefined" else "null") ++ "."

/-- The message of the error thrown on a non-success provider response:
`Google API responded with status ${status}: ${errorText}`. -/
def googleErrorMessage (status : Nat) (errorText : String) : String :=
  "Google API responded with status " ++ toString status ++ ": " ++ errorText

/-- The validation `!prompt || !scrapwood || scrapwood.length === 0`. -/
def missingFields (body : JsValue) : Bool :=
  !(body.getField "prompt").truthy || !(body.getField "scrapwood").truthy
    || JsValue.strictEqPrim ((body.getField "scrapwood").getField "length") (.num 0)

/-- `freakyness !== undefined ? freakyness : 0.5`. -/
def tempOf (freakyness : JsValue) : JsValue :=
  if !freakyness.isUndefined then freakyness else .num (1/2)

/-- The `googleApiUrl` template literal. -/
def googleApiUrlOf (apiKey : String) : String :=
  "https://generativelanguage.googleapis.com/v1beta/models/" ++ model
    ++ ":generateContent?key=" ++ apiKey

/-- The single outbound call the handler constructs from a validated body:
`geminiParts` is `[SYSTEM_PROMPT, userInstruction]`, the temperature is the
resolved `freakyness`, and JSON output is requested. -/
def outboundCallOf (apiKey : String) (body : JsValue) : OutboundCall :=
  { url := googleApiUrlOf apiKey
  , parts := [SYSTEM_PROMPT,
      userInstructionOf (body.getField "scrapwood") (body.getField "prompt")]
  , temperature := tempOf (body.getField "freakyness")
  , responseMimeType := "application/json" }

/-- The handler of `src/api/generate-from-scrapwood.js`, step for step:
method gate, `try` block (destructuring, key check, field validation, the
outbound call and the relay) and the catch-all `catch` turning any thrown
error into a generic 500. -/
def handler (env : Env) (provider : OutboundCall → ProviderOutcome)
    (req : Request) : HandlerResult :=
  if !(req.method == "POST") then
    { response := methodNotAllowedResponse, calls := [], logs := [] }
  else if req.body.isNullish then
    -- `const { prompt, scrapwood, freakyness } = req.body` throws a
    -- TypeError, which the catch-all logs and converts to a generic 500.
    let m := destructureErrorMessage req.body
    { response := serverErrorResponse m, calls := [], logs := [m] }
  else if !env.apiKeyTruthy then
    { response := misconfiguredResponse, calls := [], logs := [] }
  else if missingFields req.body then
    { response := badRequestResponse, calls := [], logs := [] }
  else
    let call := outboundCallOf env.apiKeyString req.body
    match provider call with
    | .success googleData =>
        { response := { status := 200, body := googleData }, calls := [call], logs := [] }
    | .httpError status errorText =>
        -- `console.error("Google API Error:", errorText)` then `throw`,
        -- whose message the catch-all logs and relays.
        let m := googleErrorMessage status errorText
        { response := serverErrorResponse m, calls := [call]
        , logs := ["Google API Error: " ++ errorText, m] }
    | .netError m =>
        { response := serverErrorResponse m, calls := [call], logs := [m] }
    | .jsonError m =>
        { response := serverErrorResponse m, calls := [call], logs := [m] }

/-- A request that passes every gate before the outbound call: POST method,
destructurable body, truthy API key, and the required fields present. -/
def validRequest (env : Env) (req : Request) : Bool :=
  req.method == "POST" && !req.body.isNullish && env.apiKeyTruthy
    && !missingFields req.body

/-- `sub` occurs as a contiguous substring of `s`. -/
def strContains (s sub : String) : Prop := List.IsInfix sub.data s.data

lemma strContains_of_eq (a b sub s : String) (h : s = a ++ sub ++ b) :
    strContains s sub := by
  subst h
  exact ⟨a.data, b.data, by simp [String.data_append]⟩

lemma validRequest_parts (env : Env) (req : Request)
    (h : validRequest env req = true) :
    req.method = "POST" ∧ req.body.isNullish = false ∧
      env.apiKeyTruthy = true ∧ missingFields req.body = false := by
  simp only [validRequest, Bool.and_eq_true, beq_iff_eq, Bool.not_eq_true'] at h
  exact ⟨h.1.1.1, h.1.1.2, h.1.2, h.2⟩

/-- On a request passing all gates, the handler's behaviour is determined by
the provider's outcome on the one constructed outbound call. -/
lemma handler_valid (env : Env) (provider : OutboundCall → ProviderOutcome)
    (req : Request) (h : validRequest env req = true) :
    handler env provider req =
      match provider (outboundCallOf env.apiKeyString req.body) with
      | .success googleData =>
          { response := { status := 200, body := googleData }
          , calls := [outboundCallOf env.apiKeyString req.body], logs := [] }
      | .httpError status errorText =>
          { response := serverErrorResponse (googleErrorMessage status errorText)
          , calls := [outboundCallOf env.apiKeyString req.body]
          , logs := ["Google API Error: " ++ errorText, googleErrorMessage status errorText] }
      | .netError m =>
          { response := serverErrorResponse m
          , calls := [outboundCallOf env.apiKeyString req.body], logs := [m] }
      | .jsonError m =>
          { response := serverErrorResponse m
          , calls := [outboundCallOf env.apiKeyString req.body], logs := [m] } := by
  obtain ⟨h1, h2, h3, h4⟩ := validRequest_parts env req h
  simp [handler, h1, h2, h3, h4]

/-- A provider that always succeeds with a fixed payload, for concrete runs. -/
def constProvider (b : JsValue) : OutboundCall → ProviderOutcome :=
  fun _ => .success b

/-- A concrete configured environment. -/
def envWithKey : Env := { GEMINI_API_KEY := some "k" }

/-- A concrete unconfigured environment. -/
def envNoKey : Env := { GEMINI_API_KEY := none }

/-- A concrete well-formed request body. -/
def goodBody : JsValue :=
  .obj [("prompt", .str "a simple stool"),
        ("scrapwood", .arr [.obj [("width", .num (1/10)), ("height", .num 2),
                                  ("depth", .num (1/20))]])]

/-- A concrete provider success payload. -/
def stoolBody : JsValue :=
  .obj [("objectName", .str "stool"), ("parts", .arr [])]

/-- C7: for every request whose method is not POST, the handler responds with
status 405 and body `\x7b message: "Method Not Allowed" \x7d`, makes no outbound
call and performs no other processing (nothing is logged). -/
theorem c7_method_not_allowed (env : Env) (provider : OutboundCall → ProviderOutcome)
    (req : Request) (h : req.method ≠ "POST") :
    (handler env provider req).response = methodNotAllowedResponse ∧
      (handler env provider req).calls = [] ∧
      (handler env provider req).logs = [] := by
  simp [handler, beq_iff_eq, h]

/-- Witness for C7 at a concrete GET request. -/
theorem c7_method_not_allowed_witness :
    (handler envWithKey (constProvider stoolBody)
        { method := "GET", body := goodBody }).response = methodNotAllowedResponse ∧
      (handler envWithKey (constProvider stoolBody)
        { method := "GET", body := goodBody }).calls = [] ∧
      (handler envWithKey (constProvider stoolBody)
        { method := "GET", body := goodBody }).logs = [] :=
  c7_method_not_allowed envWithKey (constProvider stoolBody)
    { method := "GET", body := goodBody } (by decide)

/-- C3: on a POST request with a destructurable body, if the API key is
absent from configuration the handler responds 500 with the misconfiguration
message — whatever the body's fields are — and makes no outbound call. -/
theorem c3_missing_key (env : Env) (provider : OutboundCall → ProviderOutcome)
    (req : Request) (hpost : req.method = "POST")
    (hbody : req.body.isNullish = false) (hkey : env.GEMINI_API_KEY = none) :
    (handler env provider req).response = misconfiguredResponse ∧
      (handler env provider req).calls = [] := by
  simp [handler, beq_iff_eq, hpost, hbody, Env.apiKeyTruthy, hkey]

/-- Witness for C3: unconfigured key with an otherwise fully valid body. -/
theorem c3_missing_key_witness :
    (handler envNoKey (constProvider stoolBody)
        { method := "POST", body := goodBody }).response = misconfiguredResponse ∧
      (handler envNoKey (constProvider stoolBody)
        { method := "POST", body := goodBody }).calls = [] :=
  c3_missing_key envNoKey (constProvider stoolBody)
    { method := "POST", body := goodBody } rfl rfl rfl

/-- C9: a POST request with no body at all (`req.body` is `undefined`) is
answered by the catch-all: status 500 with the generic message/error body —
not the 400 bad-request response — and no outbound call is made. -/
theorem c9_absent_body (env : Env) (provider : OutboundCall → ProviderOutcome)
    (req : Request) (hpost : req.method = "POST") (hbody : req.body = .undefined) :
    (handler env provider req).response =
        serverErrorResponse (destructureErrorMessage .undefined) ∧
      (handler env provider req).response.status = 500 ∧
      (handler env provider req).response.status ≠ 400 ∧
      (handler env provider req).calls = [] := by
  simp [handler, beq_iff_eq, hpost, hbody, JsValue.isNullish, serverErrorResponse]

/-- Witness for C9 at a concrete body-less POST request. -/
theorem c9_absent_body_witness :
    (handler envWithKey (constProvider stoolBody)
        { method := "POST", body := .undefined }).response =
        serverErrorResponse (destructureErrorMessage .undefined) ∧
      (handler envWithKey (constProvider stoolBody)
        { method := "POST", body := .undefined }).response.status = 500 ∧
      (handler envWithKey (constProvider stoolBody)
        { method := "POST", body := .undefined }).response.status ≠ 400 ∧
      (handler envWithKey (constProvider stoolBody)
        { method := "POST", body := .undefined }).calls = [] :=
  c9_absent_body envWithKey (constProvider stoolBody)
    { method := "POST", body := .undefined } rfl rfl

/-- C1: on a request passing validation, if the outbound call succeeds with
JSON body `B`, the handler responds with status 200 and body `B`, unmodified. -/
theorem c1_success_relay (env : Env) (provider : OutboundCall → ProviderOutcome)
    (req : Request) (B : JsValue) (hvalid : validRequest env req = true)
    (hprov : provider (outboundCallOf env.apiKeyString req.body) = .success B) :
    (handler env provider req).response.status = 200 ∧
      (handler env provider req).response.body = B := by
  rw [handler_valid env provider req hvalid, hprov]
  exact ⟨rfl, rfl⟩

/-- Witness for C1 at a concrete valid request and provider payload. -/
theorem c1_success_relay_witness :
    validRequest envWithKey { method := "POST", body := goodBody } = true ∧
      (handler envWithKey (constProvider stoolBody)
          { method := "POST", body := goodBody }).response.status = 200 ∧
      (handler envWithKey (constProvider stoolBody)
          { method := "POST", body := goodBody }).response.body = stoolBody :=
  ⟨by decide,
    c1_success_relay envWithKey (constProvider stoolBody)
      { method := "POST", body := goodBody } stoolBody (by decide) rfl⟩

/-- A provider that always fails with a fixed HTTP error, for concrete runs. -/
def errProvider : OutboundCall → ProviderOutcome :=
  fun _ => .httpError 403 "quota exceeded"

/-- C4: on a valid request, if the outbound call returns a non-success status,
the handler responds 500 with message "An error occurred on the server." and
an `error` field containing both the provider's status code and its body
text, and the provider failure is logged. -/
theorem c4_provider_error (env : Env) (provider : OutboundCall → ProviderOutcome)
    (req : Request) (s : Nat) (t : String)
    (hvalid : validRequest env req = true)
    (hprov : provider (outboundCallOf env.apiKeyString req.body) = .httpError s t) :
    (handler env provider req).response.status = 500 ∧
      ((handler env provider req).response.body).getField "message" =
        .str "An error occurred on the server." ∧
      ((handler env provider req).response.body).getField "error" =
        .str (googleErrorMessage s t) ∧
      strContains (googleErrorMessage s t) (toString s) ∧
      strContains (googleErrorMessage s t) t ∧
      ("Google API Error: " ++ t) ∈ (handler env provider req).logs := by
  rw [handler_valid env provider req hvalid, hprov]
  refine ⟨rfl, rfl, rfl, ?_, ?_, ?_⟩
  · exact ⟨"Google API responded with status ".data, (": " ++ t).data,
      by simp [googleErrorMessage, String.data_append]⟩
  · exact ⟨("Google API responded with status " ++ toString s ++ ": ").data, [],
      by simp [googleErrorMessage, String.data_append]⟩
  · simp

/-- Witness for C4 at a concrete valid request and provider failure. -/
theorem c4_provider_error_witness :
    validRequest envWithKey { method := "POST", body := goodBody } = true ∧
      (handler envWithKey errProvider
          { method := "POST", body := goodBody }).response.status = 500 ∧
      strContains (googleErrorMessage 403 "quota exceeded") (toString 403) ∧
      strContains (googleErrorMessage 403 "quota exceeded") "quota exceeded" ∧
      ("Google API Error: " ++ "quota exceeded") ∈
        (handler envWithKey errProvider { method := "POST", body := goodBody }).logs := by
  have h := c4_provider_error envWithKey errProvider
    { method := "POST", body := goodBody } 403 "quota exceeded" (by decide) rfl
  exact ⟨by decide, h.1, h.2.2.2.1, h.2.2.2.2.1, h.2.2.2.2.2⟩

/-- A concrete valid body that supplies `freakyness`. -/
def freakyBody : JsValue :=
  .obj [("prompt", .str "a shelf"), ("scrapwood", .arr [.num 1]),
        ("freakyness", .num 2)]

/-- C5: on a valid request, exactly the one constructed call is made and its
temperature is the request's `freakyness` whenever one is provided, else 0.5;
no clamping or range check is applied. -/
theorem c5_temperature (env : Env) (provider : OutboundCall → ProviderOutcome)
    (req : Request) (hvalid : validRequest env req = true) :
    (handler env provider req).calls = [outboundCallOf env.apiKeyString req.body] ∧
      ((req.body.getField "freakyness").isUndefined = false →
        (outboundCallOf env.apiKeyString req.body).temperature =
          req.body.getField "freakyness") ∧
      ((req.body.getField "freakyness").isUndefined = true →
        (outboundCallOf env.apiKeyString req.body).temperature = .num (1/2)) := by
  refine ⟨?_, ?_, ?_⟩
  · rw [handler_valid env provider req hvalid]
    cases provider (outboundCallOf env.apiKeyString req.body) <;> rfl
  · intro h; simp [outboundCallOf, tempOf, h]
  · intro h; simp [outboundCallOf, tempOf, h]

/-- Witness for C5: the default 0.5 on `goodBody` (no `freakyness`) and the
verbatim pass-through of `freakyness = 2` on `freakyBody`. -/
theorem c5_temperature_witness :
    (handler envWithKey (constProvider stoolBody)
        { method := "POST", body := goodBody }).calls =
        [outboundCallOf envWithKey.apiKeyString goodBody] ∧
      (outboundCallOf envWithKey.apiKeyString goodBody).temperature = .num (1/2) ∧
      (outboundCallOf envWithKey.apiKeyString freakyBody).temperature = .num 2 := by
  have h1 := c5_temperature envWithKey (constProvider stoolBody)
    { method := "POST", body := goodBody } (by decide)
  have h2 := c5_temperature envWithKey (constProvider stoolBody)
    { method := "POST", body := freakyBody } (by decide)
  exact ⟨h1.1, h1.2.2 rfl, h2.2.1 rfl⟩

/-- C6: on a valid request with prompt text `p`, the one outbound call carries
exactly the two ordered fragments — the fixed system instruction first, then
the user instruction — and the user instruction contains the literal prompt
and the serialized `scrapwood` inventory. -/
theorem c6_prompt_fragments (env : Env) (provider : OutboundCall → ProviderOutcome)
    (req : Request) (p : String) (hvalid : validRequest env req = true)
    (hprompt : req.body.getField "prompt" = .str p) :
    (handler env provider req).calls = [outboundCallOf env.apiKeyString req.body] ∧
      (outboundCallOf env.apiKeyString req.body).parts =
        [SYSTEM_PROMPT, userInstructionOf (req.body.getField "scrapwood") (.str p)] ∧
      strContains (userInstructionOf (req.body.getField "scrapwood") (.str p)) p ∧
      strContains (userInstructionOf (req.body.getField "scrapwood") (.str p))
        (jsonStringify (req.body.getField "scrapwood")) := by
  refine ⟨?_, ?_, ?_, ?_⟩
  · rw [handler_valid env provider req hvalid]
    cases provider (outboundCallOf env.apiKeyString req.body) <;> rfl
  · simp [outboundCallOf, hprompt]
  · exact ⟨(uiBeforeInventory ++ jsonStringify (req.body.getField "scrapwood")
        ++ uiBeforePrompt).data, uiAfterPrompt.data,
      by simp [userInstructionOf, jsToString, String.data_append]⟩
  · exact ⟨uiBeforeInventory.data,
      (uiBeforePrompt ++ p ++ uiAfterPrompt).data,
      by simp [userInstructionOf, jsToString, String.data_append]⟩

/-- Witness for C6 at the concrete `goodBody` request. -/
theorem c6_prompt_fragments_witness :
    (handler envWithKey (constProvider stoolBody)
        { method := "POST", body := goodBody }).calls =
        [outboundCallOf envWithKey.apiKeyString goodBody] ∧
      (outboundCallOf envWithKey.apiKeyString goodBody).parts =
        [SYSTEM_PROMPT,
          userInstructionOf (goodBody.getField "scrapwood") (.str "a simple stool")] ∧
      strContains (userInstructionOf (goodBody.getField "scrapwood")
        (.str "a simple stool")) "a simple stool" := by
  have h := c6_prompt_fragments envWithKey (constProvider stoolBody)
    { method := "POST", body := goodBody } "a simple stool" (by decide) rfl
  exact ⟨h.1, h.2.1, h.2.2.1⟩

/-- A concrete POST body that lacks `prompt` but has a non-empty `scrapwood`. -/
def noPromptBody : JsValue := .obj [("scrapwood", .arr [.num 1])]

/-- Counterexample to C2 as stated: with the API key unconfigured, a POST
request missing `prompt` is answered 500 (misconfiguration), not 400 —
the key check precedes the field validation. -/
theorem c2_counterexample_missing_key_first :
    (handler envNoKey (constProvider stoolBody)
        { method := "POST", body := noPromptBody }).response.status = 500 ∧
      (handler envNoKey (constProvider stoolBody)
        { method := "POST", body := noPromptBody }).response.status ≠ 400 := by
  decide

/-- C2 (amended): on a POST request with a destructurable body and a
configured API key, a body missing `prompt`, missing `scrapwood`, or with an
empty `scrapwood` array is answered 400 with the fixed message and no
outbound call is made. -/
theorem c2_bad_request (env : Env) (provider : OutboundCall → ProviderOutcome)
    (req : Request) (hpost : req.method = "POST")
    (hbody : req.body.isNullish = false) (hkey : env.apiKeyTruthy = true)
    (h : req.body.getField "prompt" = .undefined ∨
      req.body.getField "scrapwood" = .undefined ∨
      req.body.getField "scrapwood" = .arr []) :
    (handler env provider req).response = badRequestResponse ∧
      (handler env provider req).calls = [] := by
  have hm : missingFields req.body = true := by
    unfold missingFields
    rcases h with h | h | h <;> rw [h] <;>
      simp [JsValue.truthy, JsValue.getField, JsValue.strictEqPrim]
  simp [handler, beq_iff_eq, hpost, hbody, hkey, hm]

/-- Witness for the amended C2: configured key, `prompt` missing. -/
theorem c2_bad_request_witness :
    (handler envWithKey (constProvider stoolBody)
        { method := "POST", body := noPromptBody }).response = badRequestResponse ∧
      (handler envWithKey (constProvider stoolBody)
        { method := "POST", body := noPromptBody }).calls = [] :=
  c2_bad_request envWithKey (constProvider stoolBody)
    { method := "POST", body := noPromptBody } rfl rfl (by decide) (Or.inl rfl)

lemma handler_calls_cases (env : Env) (provider : OutboundCall → ProviderOutcome)
    (req : Request) :
    (handler env provider req).calls = [] ∨
      (handler env provider req).calls =
        [outboundCallOf env.apiKeyString req.body] := by
  unfold handler
  split
  · left; rfl
  split
  · left; rfl
  split
  · left; rfl
  split
  · left; rfl
  · cases h : provider (outboundCallOf env.apiKeyString req.body) <;> simp [h]

/-- C8 (amended): the handler never makes more than one outbound call per
inbound request (so nothing is ever retried), and it makes exactly one on
every request that passes validation. -/
theorem c8_single_call (env : Env) (provider : OutboundCall → ProviderOutcome)
    (req : Request) :
    (handler env provider req).calls.length ≤ 1 ∧
      (validRequest env req = true →
        (handler env provider req).calls.length = 1) := by
  constructor
  · rcases handler_calls_cases env provider req with h | h <;> simp [h]
  · intro hv
    rw [handler_valid env provider req hv]
    cases provider (outboundCallOf env.apiKeyString req.body) <;> rfl

/-- Counterexample to C8 as stated: a GET request is handled with zero
outbound calls, not exactly one. -/
theorem c8_counterexample_no_call_on_get :
    (handler envWithKey (constProvider stoolBody)
        { method := "GET", body := goodBody }).calls.length = 0 ∧
      (handler envWithKey (constProvider stoolBody)
        { method := "GET", body := goodBody }).calls.length ≠ 1 := by
  decide

/-- Witness for the amended C8 at a concrete valid request. -/
theorem c8_single_call_witness :
    (handler envWithKey (constProvider stoolBody)
        { method := "POST", body := goodBody }).calls.length ≤ 1 ∧
      (handler envWithKey (constProvider stoolBody)
        { method := "POST", body := goodBody }).calls.length = 1 :=
  ⟨(c8_single_call envWithKey (constProvider stoolBody)
      { method := "POST", body := goodBody }).1,
    (c8_single_call envWithKey (constProvider stoolBody)
      { method := "POST", body := goodBody }).2 (by decide)⟩

/-- A concrete POST body whose `scrapwood` is a truthy non-array object. -/
def objScrapBody : JsValue :=
  .obj [("prompt", .str "a box"), ("scrapwood", .obj [("width", .num 1)])]

/-- C10: a POST request whose `scrapwood` is a truthy non-array (here a JSON
object, whose `length` reads as `undefined`, which is not `=== 0`) passes
validation, and the value is serialized verbatim into the outbound user
instruction — the handler never checks that `scrapwood` is an array. -/
theorem c10_non_array_scrapwood :
    validRequest envWithKey { method := "POST", body := objScrapBody } = true ∧
      (handler envWithKey (constProvider stoolBody)
          { method := "POST", body := objScrapBody }).calls =
        [outboundCallOf envWithKey.apiKeyString objScrapBody] ∧
      (outboundCallOf envWithKey.apiKeyString objScrapBody).parts =
        [SYSTEM_PROMPT,
          userInstructionOf (.obj [("width", .num 1)]) (.str "a box")] ∧
      strContains (userInstructionOf (.obj [("width", .num 1)]) (.str "a box"))
        (jsonStringify (.obj [("width", .num 1)])) := by
  refine ⟨by decide, ?_, rfl, ?_⟩
  · rw [handler_valid envWithKey (constProvider stoolBody)
      { method := "POST", body := objScrapBody } (by decide)]
    rfl
  · exact ⟨uiBeforeInventory.data,
      (uiBeforePrompt ++ "a box" ++ uiAfterPrompt).data,
      by simp [userInstructionOf, jsToString, String.data_append]⟩

end Scrapwood
